import Mathlib

/-!
Shallow embedding of the logger in src/logger.hpp.

The C++ class Logger keeps two pieces of process-wide mutable state, the
stream selector stream_type_ and the category set log_type_.  We embed that
state as the structure LoggerState, and each emit operation as a pure
function from the state, an environment (whether the log file opens
successfully, and the current UTC broken-down time), and the argument list
to the pair of the resulting state and the bytes written to each of the
three destinations (standard output, standard error, the log file).

Heterogeneous printable arguments are embedded as the type Item (strings
and machine integers, which covers every argument the claims mention); the
operator that C++ applies to each item is embedded as Item.render.
-/

inductive StreamType
  | NONE
  | CONSOLE
  | FILE
deriving DecidableEq

inductive LogType
  | INFO
  | DEBUG
  | SUCCESS
  | ERROR
  | ALL
deriving DecidableEq

inductive Item
  | str (s : String)
  | int (n : Int)
deriving DecidableEq

def Item.render : Item → String
  | .str s => s
  | .int n => toString n

/-- The process-wide static state of class Logger: stream_type_ and
log_type_.  The unordered_set of categories is embedded as a list whose
membership relation mirrors count. -/
structure LoggerState where
  stream_type_ : StreamType
  log_type_ : List LogType
deriving DecidableEq

/-- The bytes an emit call writes to each destination: standard output,
standard error, and the log file. -/
structure Effects where
  toCout : String
  toCerr : String
  toFile : String
deriving DecidableEq

/-- No bytes written anywhere. -/
def noEff : Effects := ⟨"", "", ""⟩

def log_file_name : String := "log.txt"

def error_type : String := "[ERROR]:"

def debug_type : String := "[DEBUG]:"

def success_type : String := "[SUCCESS]:"

def error_type_color : String := "\x1b[31m[ERROR]:\x1b[0m"

def debug_type_color : String := "\x1b[33m[DEBUG]:\x1b[0m"

def success_type_color : String := "\x1b[32m[SUCCESS]:\x1b[0m"

/-- The in-class initializers: stream_type_{console} and log_type_{all}. -/
def initState : LoggerState := ⟨StreamType.CONSOLE, [LogType.ALL]⟩

/-- Logger::SetStream assigns the given stream type. -/
def SetStream (st : LoggerState) (stream_type : StreamType) : LoggerState :=
  { st with stream_type_ := stream_type }

/-- One unordered_set insert: adds the element unless already present. -/
def setInsert (s : List LogType) (x : LogType) : List LogType :=
  if x ∈ s then s else s ++ [x]

/-- Logger::SetLogType clears log_type_ and then inserts every element of
the given initializer list. -/
def SetLogType (st : LoggerState) (log_type_list : List LogType) : LoggerState :=
  { st with log_type_ := log_type_list.foldl setInsert [] }

/-- A broken-down UTC time as produced by gmtime. -/
structure Tm where
  year : Nat
  month : Nat
  day : Nat
  hour : Nat
  minute : Nat
  second : Nat
deriving DecidableEq

/-- Two-digit zero padding, as strftime applies to every field of the
format other than the year. -/
def pad2 (n : Nat) : String := if n < 10 then "0" ++ toString n else toString n

/-- Logger::CurrentTime renders the current UTC time with the strftime
format string of put_time, namely a bracketed date and time of day. -/
def CurrentTime (t : Tm) : String :=
  "[" ++ toString t.year ++ "-" ++ pad2 t.month ++ "-" ++ pad2 t.day ++ " " ++
    pad2 t.hour ++ ":" ++ pad2 t.minute ++ ":" ++ pad2 t.second ++ "]"

/-- Logger::LogRecursive: the variadic case streams the first item followed
by a single space and recurses; the base case streams endl. -/
def LogRecursive : List Item → String
  | [] => "\n"
  | item :: args => item.render ++ " " ++ LogRecursive args

/-- Logger::LogInfo.  The fileOk flag tells whether the ofstream open of
log.txt succeeds; t is the current time (unused by this operation, which
never prints a timestamp). -/
def LogInfo (st : LoggerState) (fileOk : Bool) (t : Tm) (args : List Item) :
    LoggerState × Effects :=
  if LogType.INFO ∉ st.log_type_ ∧ LogType.ALL ∉ st.log_type_ then (st, noEff)
  else
    match st.stream_type_ with
    | .CONSOLE => (st, { noEff with toCout := LogRecursive args })
    | .FILE =>
        if fileOk then (st, { noEff with toFile := LogRecursive args })
        else (st, noEff)
    | .NONE => (st, noEff)

/-- Logger::LogDebug. -/
def LogDebug (st : LoggerState) (fileOk : Bool) (t : Tm) (function_name : String)
    (args : List Item) : LoggerState × Effects :=
  if LogType.DEBUG ∉ st.log_type_ ∧ LogType.ALL ∉ st.log_type_ then (st, noEff)
  else
    match st.stream_type_ with
    | .CONSOLE =>
        let out := LogRecursive
          (.str debug_type_color :: .str function_name :: .str ":" :: args)
        (st, { noEff with toCout := out })
    | .FILE =>
        if fileOk then
          let out := LogRecursive
            (.str (CurrentTime t) :: .str debug_type :: .str function_name ::
              .str ":" :: args)
          (st, { noEff with toFile := out })
        else (st, noEff)
    | .NONE => (st, noEff)

/-- Logger::LogError.  On the console the line carries the file name, the
line number and the function name; on the file sink the file name is not
among the streamed items. -/
def LogError (st : LoggerState) (fileOk : Bool) (t : Tm) (file_name : String)
    (function_name : String) (line : Int) (args : List Item) : LoggerState × Effects :=
  if LogType.ERROR ∉ st.log_type_ ∧ LogType.ALL ∉ st.log_type_ then (st, noEff)
  else
    match st.stream_type_ with
    | .CONSOLE =>
        let out := LogRecursive
          (.str error_type_color :: .str file_name :: .str ":" :: .int line ::
            .str ":" :: .str function_name :: .str ":" :: args)
        (st, { noEff with toCerr := out })
    | .FILE =>
        if fileOk then
          let out := LogRecursive
            (.str (CurrentTime t) :: .str error_type :: .int line ::
              .str ":" :: .str function_name :: .str ":" :: args)
          (st, { noEff with toFile := out })
        else (st, noEff)
    | .NONE => (st, noEff)

/-- Logger::LogSuccess. -/
def LogSuccess (st : LoggerState) (fileOk : Bool) (t : Tm) (function_name : String) :
    LoggerState × Effects :=
  if LogType.SUCCESS ∉ st.log_type_ ∧ LogType.ALL ∉ st.log_type_ then (st, noEff)
  else
    match st.stream_type_ with
    | .CONSOLE =>
        let out := LogRecursive
          [.str success_type_color, .str function_name]
        (st, { noEff with toCout := out })
    | .FILE =>
        if fileOk then
          let out := LogRecursive
            [.str (CurrentTime t), .str success_type, .str function_name]
          (st, { noEff with toFile := out })
        else (st, noEff)
    | .NONE => (st, noEff)

/-- A fixed sample time used for concrete evaluations. -/
def t0 : Tm := ⟨2024, 1, 2, 3, 4, 5⟩

/-- Every line that LogRecursive produces is nonempty, since the base case
already streams the newline. -/
theorem LogRecursive_length_pos (args : List Item) : 0 < (LogRecursive args).length := by
  cases args with
  | nil => decide
  | cons item rest =>
      simp only [LogRecursive, String.length_append]
      have h1 : (" ").length = 1 := rfl
      omega

/-- A LogRecursive line is never the empty string. -/
theorem LogRecursive_ne_empty (args : List Item) : LogRecursive args ≠ "" := by
  intro h
  have hp := LogRecursive_length_pos args
  rw [h] at hp
  simp at hp

/-- Membership after one unordered_set insert. -/
theorem mem_setInsert (acc : List LogType) (x c : LogType) :
    c ∈ setInsert acc x ↔ c ∈ acc ∨ c = x := by
  unfold setInsert
  split
  · rename_i h
    constructor
    · exact Or.inl
    · rintro (h1 | rfl)
      · exact h1
      · exact h
  · simp [List.mem_append]

/-- Membership after folding unordered_set inserts over a list. -/
theorem mem_foldl_setInsert (L acc : List LogType) (c : LogType) :
    c ∈ L.foldl setInsert acc ↔ c ∈ acc ∨ c ∈ L := by
  induction L generalizing acc with
  | nil => simp
  | cons x xs ih =>
      simp only [List.foldl_cons, ih, mem_setInsert, List.mem_cons]
      tauto

/-- Claim C3, counterexample: in the state reached by SetStream(Console)
and SetLogType with the singleton Info, the call LogInfo with the items
the string a and the integer 1 writes the bytes of the line with a space
after every element, including the last one before the newline, so the
written bytes differ from the sequence claimed by the specification. -/
theorem C3_counterexample :
    (LogInfo (SetLogType (SetStream initState StreamType.CONSOLE) [LogType.INFO]) true t0
      [Item.str "a", Item.int 1]).2.toCout = "a 1 \n" ∧ "a 1 \n" ≠ "a 1\n" :=
  ⟨rfl, by decide⟩

/-- Claim C3, amended: after SetStream(Console) and SetLogType with the
singleton Info, the call LogInfo with the items the string a and the
integer 1 writes to standard output exactly the bytes of the line in which
every element is followed by one space (so a space precedes the final
newline), writes nothing to standard error or to the file, and the other
three emit operations produce no output at all in that state. -/
theorem C3_scenario (st0 : LoggerState) (fileOk : Bool) (t : Tm)
    (file_name function_name : String) (line : Int) (args : List Item) :
    (LogInfo (SetLogType (SetStream st0 StreamType.CONSOLE) [LogType.INFO]) fileOk t
      [Item.str "a", Item.int 1]).2 = ⟨"a 1 \n", "", ""⟩ ∧
    (LogDebug (SetLogType (SetStream st0 StreamType.CONSOLE) [LogType.INFO]) fileOk t
      function_name args).2 = noEff ∧
    (LogError (SetLogType (SetStream st0 StreamType.CONSOLE) [LogType.INFO]) fileOk t
      file_name function_name line args).2 = noEff ∧
    (LogSuccess (SetLogType (SetStream st0 StreamType.CONSOLE) [LogType.INFO]) fileOk t
      function_name).2 = noEff :=
  ⟨rfl, rfl, rfl, rfl⟩

/-- Claim C5: SetLogType replaces the category set with exactly the
elements of the given list, clearing the previous contents; as a
consequence, after SetLogType of the singleton Debug following SetLogType
of the singleton Error an error emit produces no output and leaves the
state unchanged, and after SetLogType of the empty list every emit
operation of every category produces no output. -/
theorem C5_set_categories_replaces (st : LoggerState) (L : List LogType) (c : LogType)
    (fileOk : Bool) (t : Tm) (file_name function_name : String) (line : Int)
    (args : List Item) :
    (c ∈ (SetLogType st L).log_type_ ↔ c ∈ L) ∧
    LogError (SetLogType (SetLogType st [LogType.ERROR]) [LogType.DEBUG]) fileOk t
      file_name function_name line args =
      (SetLogType (SetLogType st [LogType.ERROR]) [LogType.DEBUG], noEff) ∧
    LogInfo (SetLogType st []) fileOk t args = (SetLogType st [], noEff) ∧
    LogDebug (SetLogType st []) fileOk t function_name args = (SetLogType st [], noEff) ∧
    LogError (SetLogType st []) fileOk t file_name function_name line args =
      (SetLogType st [], noEff) ∧
    LogSuccess (SetLogType st []) fileOk t function_name = (SetLogType st [], noEff) := by
  refine ⟨?_, rfl, rfl, rfl, rfl, rfl⟩
  simp [SetLogType, mem_foldl_setInsert]

/-- Claim C7: the in-class initializers give the default state the console
stream and the category set holding exactly All, and in that default state
every emit operation writes its line to a console stream (standard output,
or standard error for the error operation) and nothing anywhere else. -/
theorem C7_defaults (fileOk : Bool) (t : Tm) (file_name function_name : String)
    (line : Int) (args : List Item) :
    initState.stream_type_ = StreamType.CONSOLE ∧
    initState.log_type_ = [LogType.ALL] ∧
    (LogInfo initState fileOk t args).2 = ⟨LogRecursive args, "", ""⟩ ∧
    (LogDebug initState fileOk t function_name args).2 =
      ⟨LogRecursive (.str debug_type_color :: .str function_name :: .str ":" :: args),
        "", ""⟩ ∧
    (LogError initState fileOk t file_name function_name line args).2 =
      ⟨"", LogRecursive (.str error_type_color :: .str file_name :: .str ":" :: .int line ::
        .str ":" :: .str function_name :: .str ":" :: args), ""⟩ ∧
    (LogSuccess initState fileOk t function_name).2 =
      ⟨LogRecursive [.str success_type_color, .str function_name], "", ""⟩ :=
  ⟨rfl, rfl, rfl, rfl, rfl, rfl⟩

/-- Claim C10: a LogInfo call with the empty argument list, in any state
whose stream is the console and whose category set passes the info filter,
writes exactly one newline to standard output and nothing elsewhere,
because the base case of LogRecursive unconditionally streams endl. -/
theorem C10_empty_info_newline (st : LoggerState) (fileOk : Bool) (t : Tm)
    (h1 : st.stream_type_ = StreamType.CONSOLE)
    (h2 : LogType.INFO ∈ st.log_type_ ∨ LogType.ALL ∈ st.log_type_) :
    (LogInfo st fileOk t []).2 = ⟨"\n", "", ""⟩ := by
  unfold LogInfo
  rw [if_neg (by tauto), h1]
  rfl

/-- Claim C10, witness: the default state has the console stream and
passes the info filter, and the empty info emit there writes one newline. -/
theorem C10_empty_info_newline_witness :
    (LogInfo initState true t0 []).2 = ⟨"\n", "", ""⟩ :=
  C10_empty_info_newline initState true t0 rfl (Or.inr (by decide))

/-- Claim C4: with the console stream, an error emit that passes the
category filter writes its line to standard error and nothing to standard
output or to the file, while info, debug and success emits that pass the
filter write their lines to standard output and nothing to standard error
or to the file, for every argument list. -/
theorem C4_console_routing (S : List LogType) (fileOk : Bool) (t : Tm)
    (file_name function_name : String) (line : Int) (args : List Item) :
    (LogType.ERROR ∈ S ∨ LogType.ALL ∈ S →
      (LogError ⟨StreamType.CONSOLE, S⟩ fileOk t file_name function_name line args).2 =
        ⟨"", LogRecursive (.str error_type_color :: .str file_name :: .str ":" ::
          .int line :: .str ":" :: .str function_name :: .str ":" :: args), ""⟩) ∧
    (LogType.INFO ∈ S ∨ LogType.ALL ∈ S →
      (LogInfo ⟨StreamType.CONSOLE, S⟩ fileOk t args).2 = ⟨LogRecursive args, "", ""⟩) ∧
    (LogType.DEBUG ∈ S ∨ LogType.ALL ∈ S →
      (LogDebug ⟨StreamType.CONSOLE, S⟩ fileOk t function_name args).2 =
        ⟨LogRecursive (.str debug_type_color :: .str function_name :: .str ":" :: args),
          "", ""⟩) ∧
    (LogType.SUCCESS ∈ S ∨ LogType.ALL ∈ S →
      (LogSuccess ⟨StreamType.CONSOLE, S⟩ fileOk t function_name).2 =
        ⟨LogRecursive [.str success_type_color, .str function_name], "", ""⟩) := by
  refine ⟨fun h => ?_, fun h => ?_, fun h => ?_, fun h => ?_⟩
  · unfold LogError
    rw [if_neg (by tauto)]
    rfl
  · unfold LogInfo
    rw [if_neg (by tauto)]
    rfl
  · unfold LogDebug
    rw [if_neg (by tauto)]
    rfl
  · unfold LogSuccess
    rw [if_neg (by tauto)]
    rfl

/-- Claim C4, witness: with the console stream and the category set
holding exactly All, the error emit at a concrete call site writes its
line to standard error only. -/
theorem C4_console_routing_witness :
    (LogError ⟨StreamType.CONSOLE, [LogType.ALL]⟩ true t0 "x.cpp" "main" 10 []).2 =
      ⟨"", LogRecursive [.str error_type_color, .str "x.cpp", .str ":", .int 10,
        .str ":", .str "main", .str ":"], ""⟩ :=
  (C4_console_routing [LogType.ALL] true t0 "x.cpp" "main" 10 []).1 (Or.inr (by decide))

/-- Claim C6: when the stream is the file and the ofstream open of the log
file fails, every emit operation writes nothing anywhere, changes nothing,
and simply returns; no emit operation ever produces an error value, since
each one is a total function into a state and output pair. -/
theorem C6_open_failure_noop (st : LoggerState) (t : Tm)
    (file_name function_name : String) (line : Int) (args : List Item)
    (h : st.stream_type_ = StreamType.FILE) :
    LogInfo st false t args = (st, noEff) ∧
    LogDebug st false t function_name args = (st, noEff) ∧
    LogError st false t file_name function_name line args = (st, noEff) ∧
    LogSuccess st false t function_name = (st, noEff) := by
  refine ⟨?_, ?_, ?_, ?_⟩
  · unfold LogInfo
    split
    · rfl
    · rw [h]
      rfl
  · unfold LogDebug
    split
    · rfl
    · rw [h]
      rfl
  · unfold LogError
    split
    · rfl
    · rw [h]
      rfl
  · unfold LogSuccess
    split
    · rfl
    · rw [h]
      rfl

/-- Claim C6, witness: with the file stream selected, the default category
set, and a failing open, the info emit is a no-op. -/
theorem C6_open_failure_noop_witness :
    LogInfo ⟨StreamType.FILE, [LogType.ALL]⟩ false t0 [] =
      (⟨StreamType.FILE, [LogType.ALL]⟩, noEff) :=
  (C6_open_failure_noop ⟨StreamType.FILE, [LogType.ALL]⟩ t0 "x.cpp" "main" 10 [] rfl).1

/-- Claim C9: every emit operation leaves the process-wide configuration
(the stream selector and the category set) exactly as it found it, for
every state, environment and argument list. -/
theorem C9_emits_preserve_state (st : LoggerState) (fileOk : Bool) (t : Tm)
    (file_name function_name : String) (line : Int) (args : List Item) :
    (LogInfo st fileOk t args).1 = st ∧
    (LogDebug st fileOk t function_name args).1 = st ∧
    (LogError st fileOk t file_name function_name line args).1 = st ∧
    (LogSuccess st fileOk t function_name).1 = st := by
  refine ⟨?_, ?_, ?_, ?_⟩
  · unfold LogInfo
    split
    · rfl
    · rcases st with ⟨σ, S⟩
      cases σ
      · rfl
      · rfl
      · cases fileOk <;> rfl
  · unfold LogDebug
    split
    · rfl
    · rcases st with ⟨σ, S⟩
      cases σ
      · rfl
      · rfl
      · cases fileOk <;> rfl
  · unfold LogError
    split
    · rfl
    · rcases st with ⟨σ, S⟩
      cases σ
      · rfl
      · rfl
      · cases fileOk <;> rfl
  · unfold LogSuccess
    split
    · rfl
    · rcases st with ⟨σ, S⟩
      cases σ
      · rfl
      · rfl
      · cases fileOk <;> rfl

/-- Claim C1, counterexample: with the stream set to None the category All
is active, yet an info emit writes nothing anywhere, so activity of the
category alone does not imply that output is produced. -/
theorem C1_counterexample :
    LogType.ALL ∈ (SetStream initState StreamType.NONE).log_type_ ∧
    (LogInfo (SetStream initState StreamType.NONE) true t0 [Item.str "a"]).2 = noEff :=
  ⟨by decide, rfl⟩

/-- Claim C1, amended: for every category and every category set S, an
emit call of that category has no effect of any kind when neither its own
category nor All is in S, whatever the stream; and it does produce output
when its category or All is in S, provided the stream is the console, or
the file with a successful open. -/
theorem C1_filter_amended (σ : StreamType) (S : List LogType) (fileOk : Bool) (t : Tm)
    (file_name function_name : String) (line : Int) (args : List Item) :
    (LogType.INFO ∉ S ∧ LogType.ALL ∉ S →
      LogInfo ⟨σ, S⟩ fileOk t args = (⟨σ, S⟩, noEff)) ∧
    (LogType.INFO ∈ S ∨ LogType.ALL ∈ S →
      (LogInfo ⟨StreamType.CONSOLE, S⟩ fileOk t args).2 ≠ noEff) ∧
    (LogType.INFO ∈ S ∨ LogType.ALL ∈ S →
      (LogInfo ⟨StreamType.FILE, S⟩ true t args).2 ≠ noEff) ∧
    (LogType.DEBUG ∉ S ∧ LogType.ALL ∉ S →
      LogDebug ⟨σ, S⟩ fileOk t function_name args = (⟨σ, S⟩, noEff)) ∧
    (LogType.DEBUG ∈ S ∨ LogType.ALL ∈ S →
      (LogDebug ⟨StreamType.CONSOLE, S⟩ fileOk t function_name args).2 ≠ noEff) ∧
    (LogType.DEBUG ∈ S ∨ LogType.ALL ∈ S →
      (LogDebug ⟨StreamType.FILE, S⟩ true t function_name args).2 ≠ noEff) ∧
    (LogType.ERROR ∉ S ∧ LogType.ALL ∉ S →
      LogError ⟨σ, S⟩ fileOk t file_name function_name line args = (⟨σ, S⟩, noEff)) ∧
    (LogType.ERROR ∈ S ∨ LogType.ALL ∈ S →
      (LogError ⟨StreamType.CONSOLE, S⟩ fileOk t file_name function_name line args).2 ≠
        noEff) ∧
    (LogType.ERROR ∈ S ∨ LogType.ALL ∈ S →
      (LogError ⟨StreamType.FILE, S⟩ true t file_name function_name line args).2 ≠
        noEff) ∧
    (LogType.SUCCESS ∉ S ∧ LogType.ALL ∉ S →
      LogSuccess ⟨σ, S⟩ fileOk t function_name = (⟨σ, S⟩, noEff)) ∧
    (LogType.SUCCESS ∈ S ∨ LogType.ALL ∈ S →
      (LogSuccess ⟨StreamType.CONSOLE, S⟩ fileOk t function_name).2 ≠ noEff) ∧
    (LogType.SUCCESS ∈ S ∨ LogType.ALL ∈ S →
      (LogSuccess ⟨StreamType.FILE, S⟩ true t function_name).2 ≠ noEff) := by
  refine ⟨fun h => ?_, fun h => ?_, fun h => ?_, fun h => ?_, fun h => ?_, fun h => ?_,
    fun h => ?_, fun h => ?_, fun h => ?_, fun h => ?_, fun h => ?_, fun h => ?_⟩
  · unfold LogInfo
    rw [if_pos h]
  · unfold LogInfo
    rw [if_neg (by tauto)]
    intro hc
    exact LogRecursive_ne_empty args (congrArg Effects.toCout hc)
  · unfold LogInfo
    rw [if_neg (by tauto)]
    intro hc
    exact LogRecursive_ne_empty args (congrArg Effects.toFile hc)
  · unfold LogDebug
    rw [if_pos h]
  · unfold LogDebug
    rw [if_neg (by tauto)]
    intro hc
    exact LogRecursive_ne_empty
      (.str debug_type_color :: .str function_name :: .str ":" :: args)
      (congrArg Effects.toCout hc)
  · unfold LogDebug
    rw [if_neg (by tauto)]
    intro hc
    exact LogRecursive_ne_empty
      (.str (CurrentTime t) :: .str debug_type :: .str function_name :: .str ":" :: args)
      (congrArg Effects.toFile hc)
  · unfold LogError
    rw [if_pos h]
  · unfold LogError
    rw [if_neg (by tauto)]
    intro hc
    exact LogRecursive_ne_empty
      (.str error_type_color :: .str file_name :: .str ":" :: .int line :: .str ":" ::
        .str function_name :: .str ":" :: args)
      (congrArg Effects.toCerr hc)
  · unfold LogError
    rw [if_neg (by tauto)]
    intro hc
    exact LogRecursive_ne_empty
      (.str (CurrentTime t) :: .str error_type :: .int line :: .str ":" ::
        .str function_name :: .str ":" :: args)
      (congrArg Effects.toFile hc)
  · unfold LogSuccess
    rw [if_pos h]
  · unfold LogSuccess
    rw [if_neg (by tauto)]
    intro hc
    exact LogRecursive_ne_empty [.str success_type_color, .str function_name]
      (congrArg Effects.toCout hc)
  · unfold LogSuccess
    rw [if_neg (by tauto)]
    intro hc
    exact LogRecursive_ne_empty
      [.str (CurrentTime t), .str success_type, .str function_name]
      (congrArg Effects.toFile hc)

/-- Claim C1, witness: with only Debug active and the stream set to None,
an info emit has no effect at all; with All active and the console stream,
an info emit does produce output. -/
theorem C1_filter_amended_witness :
    LogInfo ⟨StreamType.NONE, [LogType.DEBUG]⟩ true t0 [] =
      (⟨StreamType.NONE, [LogType.DEBUG]⟩, noEff) ∧
    (LogInfo ⟨StreamType.CONSOLE, [LogType.ALL]⟩ true t0 []).2 ≠ noEff :=
  ⟨(C1_filter_amended StreamType.NONE [LogType.DEBUG] true t0 "x.cpp" "main" 10 []).1
      (by decide),
    (C1_filter_amended StreamType.CONSOLE [LogType.ALL] true t0 "x.cpp" "main" 10 []).2.1
      (Or.inr (by decide))⟩

/-- Merging the separator space with the colon literal that follows it. -/
theorem append_space_colon (s : String) : " " ++ (": " ++ s) = " : " ++ s := by
  rw [← String.append_assoc]
  rfl

/-- Claim C2, counterexample: with the file stream, a successful open and
All active, an info emit writes only the joined items, a line whose bytes
carry no timestamp and no tag; and the error emit at a call site in the
file x.cpp writes a line that never mentions that file name, as its bytes
contain no letter x at all. -/
theorem C2_counterexample :
    (LogInfo ⟨StreamType.FILE, [LogType.ALL]⟩ true t0 [Item.str "a"]).2.toFile =
      "a \n" ∧
    ("a \n").data = ['a', ' ', '\n'] ∧
    (LogError ⟨StreamType.FILE, [LogType.ALL]⟩ true t0 "x.cpp" "main" 10
      [Item.str "boom"]).2.toFile =
      "[2024-01-02 03:04:05] [ERROR]: 10 : main : boom \n" ∧
    'x' ∉ ("[2024-01-02 03:04:05] [ERROR]: 10 : main : boom \n").data :=
  ⟨rfl, rfl, rfl, by decide⟩

/-- Claim C2, amended: with the file stream and a successful open, a debug,
error or success emit that passes the filter writes the timestamp, the
plain tag, the metadata and the joined items, where the error metadata is
the line number and the function name only (the caller file name is
omitted); an info emit that passes the filter writes the joined items
alone, with no timestamp and no tag. -/
theorem C2_file_lines_amended (S : List LogType) (t : Tm)
    (file_name function_name : String) (line : Int) (args : List Item) :
    (LogType.INFO ∈ S ∨ LogType.ALL ∈ S →
      (LogInfo ⟨StreamType.FILE, S⟩ true t args).2 = ⟨"", "", LogRecursive args⟩) ∧
    (LogType.DEBUG ∈ S ∨ LogType.ALL ∈ S →
      (LogDebug ⟨StreamType.FILE, S⟩ true t function_name args).2.toFile =
        CurrentTime t ++ " " ++ debug_type ++ " " ++ function_name ++ " " ++ ":" ++
          " " ++ LogRecursive args) ∧
    (LogType.ERROR ∈ S ∨ LogType.ALL ∈ S →
      (LogError ⟨StreamType.FILE, S⟩ true t file_name function_name line args).2.toFile =
        CurrentTime t ++ " " ++ error_type ++ " " ++ toString line ++ " " ++ ":" ++
          " " ++ function_name ++ " " ++ ":" ++ " " ++ LogRecursive args) ∧
    (LogType.SUCCESS ∈ S ∨ LogType.ALL ∈ S →
      (LogSuccess ⟨StreamType.FILE, S⟩ true t function_name).2.toFile =
        CurrentTime t ++ " " ++ success_type ++ " " ++ function_name ++ " " ++ "\n") := by
  refine ⟨fun h => ?_, fun h => ?_, fun h => ?_, fun h => ?_⟩
  · unfold LogInfo
    rw [if_neg (by tauto)]
    rfl
  · unfold LogDebug
    rw [if_neg (by tauto)]
    simp [LogRecursive, Item.render, String.append_assoc, append_space_colon]
  · unfold LogError
    rw [if_neg (by tauto)]
    simp [LogRecursive, Item.render, String.append_assoc, append_space_colon]
  · unfold LogSuccess
    rw [if_neg (by tauto)]
    simp [LogRecursive, Item.render, String.append_assoc]

/-- Claim C2, witness: the concrete error file line at time t0 follows the
amended composition without the caller file name. -/
theorem C2_file_lines_amended_witness :
    (LogError ⟨StreamType.FILE, [LogType.ALL]⟩ true t0 "x.cpp" "main" 10
      [Item.str "boom"]).2.toFile =
      CurrentTime t0 ++ " " ++ error_type ++ " " ++ toString (10 : Int) ++ " " ++ ":" ++
        " " ++ "main" ++ " " ++ ":" ++ " " ++ LogRecursive [Item.str "boom"] :=
  (C2_file_lines_amended [LogType.ALL] t0 "x.cpp" "main" 10 [Item.str "boom"]).2.2.1
    (Or.inr (by decide))

/-- Claim C8: two calls of the same emit operation with identical
arguments under an identical configuration write the same bytes to
standard output and to standard error, and their file lines are either
byte-identical or differ only in the leading timestamp field: both are the
timestamp of their own call time followed by one common remainder.  An
info emit has no timestamp, so even its file lines are byte-identical. -/
theorem C8_repeat_identical (st : LoggerState) (fileOk : Bool) (t1 t2 : Tm)
    (file_name function_name : String) (line : Int) (args : List Item) :
    ((LogInfo st fileOk t1 args).2.toCout = (LogInfo st fileOk t2 args).2.toCout ∧
      (LogInfo st fileOk t1 args).2.toCerr = (LogInfo st fileOk t2 args).2.toCerr ∧
      (LogInfo st fileOk t1 args).2.toFile = (LogInfo st fileOk t2 args).2.toFile) ∧
    ((LogDebug st fileOk t1 function_name args).2.toCout =
        (LogDebug st fileOk t2 function_name args).2.toCout ∧
      (LogDebug st fileOk t1 function_name args).2.toCerr =
        (LogDebug st fileOk t2 function_name args).2.toCerr ∧
      ((LogDebug st fileOk t1 function_name args).2.toFile =
          (LogDebug st fileOk t2 function_name args).2.toFile ∨
        ∃ r, (LogDebug st fileOk t1 function_name args).2.toFile =
            CurrentTime t1 ++ " " ++ r ∧
          (LogDebug st fileOk t2 function_name args).2.toFile =
            CurrentTime t2 ++ " " ++ r)) ∧
    ((LogError st fileOk t1 file_name function_name line args).2.toCout =
        (LogError st fileOk t2 file_name function_name line args).2.toCout ∧
      (LogError st fileOk t1 file_name function_name line args).2.toCerr =
        (LogError st fileOk t2 file_name function_name line args).2.toCerr ∧
      ((LogError st fileOk t1 file_name function_name line args).2.toFile =
          (LogError st fileOk t2 file_name function_name line args).2.toFile ∨
        ∃ r, (LogError st fileOk t1 file_name function_name line args).2.toFile =
            CurrentTime t1 ++ " " ++ r ∧
          (LogError st fileOk t2 file_name function_name line args).2.toFile =
            CurrentTime t2 ++ " " ++ r)) ∧
    ((LogSuccess st fileOk t1 function_name).2.toCout =
        (LogSuccess st fileOk t2 function_name).2.toCout ∧
      (LogSuccess st fileOk t1 function_name).2.toCerr =
        (LogSuccess st fileOk t2 function_name).2.toCerr ∧
      ((LogSuccess st fileOk t1 function_name).2.toFile =
          (LogSuccess st fileOk t2 function_name).2.toFile ∨
        ∃ r, (LogSuccess st fileOk t1 function_name).2.toFile =
            CurrentTime t1 ++ " " ++ r ∧
          (LogSuccess st fileOk t2 function_name).2.toFile =
            CurrentTime t2 ++ " " ++ r)) := by
  refine ⟨⟨rfl, rfl, rfl⟩, ?_, ?_, ?_⟩
  · unfold LogDebug
    rcases st with ⟨σ, S⟩
    by_cases hg : LogType.DEBUG ∉ S ∧ LogType.ALL ∉ S
    · simp only [if_pos hg]
      exact ⟨trivial, trivial, Or.inl trivial⟩
    · simp only [if_neg hg]
      cases σ
      · exact ⟨rfl, rfl, Or.inl rfl⟩
      · exact ⟨rfl, rfl, Or.inl rfl⟩
      · cases fileOk
        · exact ⟨rfl, rfl, Or.inl rfl⟩
        · refine ⟨rfl, rfl, Or.inr
            ⟨LogRecursive (.str debug_type :: .str function_name :: .str ":" :: args),
              rfl, rfl⟩⟩
  · unfold LogError
    rcases st with ⟨σ, S⟩
    by_cases hg : LogType.ERROR ∉ S ∧ LogType.ALL ∉ S
    · simp only [if_pos hg]
      exact ⟨trivial, trivial, Or.inl trivial⟩
    · simp only [if_neg hg]
      cases σ
      · exact ⟨rfl, rfl, Or.inl rfl⟩
      · exact ⟨rfl, rfl, Or.inl rfl⟩
      · cases fileOk
        · exact ⟨rfl, rfl, Or.inl rfl⟩
        · refine ⟨rfl, rfl, Or.inr
            ⟨LogRecursive (.str error_type :: .int line :: .str ":" ::
              .str function_name :: .str ":" :: args), rfl, rfl⟩⟩
  · unfold LogSuccess
    rcases st with ⟨σ, S⟩
    by_cases hg : LogType.SUCCESS ∉ S ∧ LogType.ALL ∉ S
    · simp only [if_pos hg]
      exact ⟨trivial, trivial, Or.inl trivial⟩
    · simp only [if_neg hg]
      cases σ
      · exact ⟨rfl, rfl, Or.inl rfl⟩
      · exact ⟨rfl, rfl, Or.inl rfl⟩
      · cases fileOk
        · exact ⟨rfl, rfl, Or.inl rfl⟩
        · refine ⟨rfl, rfl, Or.inr
            ⟨LogRecursive [.str success_type, .str function_name], rfl, rfl⟩⟩
